import Mathlib

/-!
Verification of the dictation-session backend (`src/src-tauri/src/lib.rs`).

The development shallowly embeds the Rust source:

* the payload structs `TranscriptionResult`, `TranscriptionError`,
  `TranslationResult`, `TranslationError` become Lean structures;
* the simulated recognizer loop `start_macos_speech_recognition`
  (lines 282-361) becomes the pure function `producerLoop`, parameterised
  by the sequence of values the loop reads from the shared
  `TRANSCRIPTION_ACTIVE` flag (one read per iteration of the `while`);
* the Tauri commands `start_transcription`, `stop_transcription` and one
  iteration of the spawned producer task become transition functions on an
  explicit system state `Sys` (flag value, spawned producer tasks, events
  published to the event sink);
* `translate` (lines 48-121) becomes a function of the environment
  credential and of the observed HTTP response; the HTTP transport itself
  is external to the repository and is represented by the response data;
* `speak` (lines 209-250) becomes the function computing the arguments of
  the `say` invocation.
-/

/-- Payload of the `transcription-result` event (lib.rs lines 7-11). -/
structure TranscriptionResult where
  text : String
  is_final : Bool
deriving DecidableEq, Repr

/-- Payload of the `transcription-error` event (lib.rs lines 13-16). -/
structure TranscriptionError where
  message : String
deriving DecidableEq, Repr

/-- Successful result of `translate` (lib.rs lines 18-21). -/
structure TranslationResult where
  translated_text : String
deriving DecidableEq, Repr

/-- Error result of `translate` (lib.rs lines 23-26). -/
structure TranslationError where
  message : String
deriving DecidableEq, Repr

/-- A message published on the event sink via `app_handle.emit`, tagged by
its topic (`transcription-result` or `transcription-error`). -/
inductive EmittedEvent where
  | transcriptionResult (payload : TranscriptionResult)
  | transcriptionError (payload : TranscriptionError)
deriving DecidableEq, Repr

/-- The `"es-ES"` arm of the `match counter` in
`start_macos_speech_recognition` (lib.rs lines 298-315): `some` is a partial
text returned for counters 1-9, `none` encodes the catch-all arm (which
emits the final fragment and breaks). -/
def esFrag : Nat → Option String
  | 1 => some "Hola"
  | 2 => some "Hola mundo"
  | 3 => some "Hola mundo, esta"
  | 4 => some "Hola mundo, esta es"
  | 5 => some "Hola mundo, esta es una"
  | 6 => some "Hola mundo, esta es una prueba"
  | 7 => some "Hola mundo, esta es una prueba de"
  | 8 => some "Hola mundo, esta es una prueba de reconocimiento"
  | 9 => some "Hola mundo, esta es una prueba de reconocimiento de voz"
  | _ => none

/-- The `"fr-FR"` arm of the `match counter` (lib.rs lines 316-333). -/
def frFrag : Nat → Option String
  | 1 => some "Bonjour"
  | 2 => some "Bonjour le monde"
  | 3 => some "Bonjour le monde, ceci"
  | 4 => some "Bonjour le monde, ceci est"
  | 5 => some "Bonjour le monde, ceci est un"
  | 6 => some "Bonjour le monde, ceci est un test"
  | 7 => some "Bonjour le monde, ceci est un test de"
  | 8 => some "Bonjour le monde, ceci est un test de reconnaissance"
  | 9 => some "Bonjour le monde, ceci est un test de reconnaissance vocale"
  | _ => none

/-- The catch-all (English) arm of the `match counter` (lib.rs lines
334-351); it also serves `"en-US"` and every unrecognized tag. -/
def enFrag : Nat → Option String
  | 1 => some "Hello"
  | 2 => some "Hello world"
  | 3 => some "Hello world, this"
  | 4 => some "Hello world, this is"
  | 5 => some "Hello world, this is a"
  | 6 => some "Hello world, this is a test"
  | 7 => some "Hello world, this is a test of"
  | 8 => some "Hello world, this is a test of speech"
  | 9 => some "Hello world, this is a test of speech recognition"
  | _ => none

/-- The `match language.as_str()` dispatch of the loop body (lib.rs line
297): the match with string literals and a catch-all is an equality chain. -/
def fragAt (language : String) (counter : Nat) : Option String :=
  if language = "es-ES" then esFrag counter
  else if language = "fr-FR" then frFrag counter
  else enFrag counter

/-- The text of the final (`is_final = true`) fragment each language arm
emits in its catch-all counter branch (lib.rs lines 308-314, 326-332,
344-350). -/
def finalText (language : String) : String :=
  if language = "es-ES" then "Hola mundo, esta es una prueba de reconocimiento de voz."
  else if language = "fr-FR" then "Bonjour le monde, ceci est un test de reconnaissance vocale."
  else "Hello world, this is a test of speech recognition."

/-- The `while *TRANSCRIPTION_ACTIVE.lock()? { ... }` loop of
`start_macos_speech_recognition` (lib.rs lines 293-358), as a function of
the sequence `flags` of values the loop reads from the shared flag
(`flags counter` is the value read when the step counter equals `counter`).
Each iteration reads the flag; if it is false the loop exits emitting
nothing.  Otherwise the counter is incremented and the fragment table is
consulted: a partial text is emitted with `is_final = false` and the loop
continues; in the catch-all branch (counter of 10 or more, `fragAt` is
`none`) the final fragment is emitted with `is_final = true` and the loop
breaks.  The `fuel` argument only bounds the recursion; `producerLoop`
always supplies enough of it, since `fragAt` is `none` from counter 10 on
(see `fragAt_eq_none`), and the fuel-exhausted base case coincides with
the catch-all behaviour at those counters.  The lemma `producerLoop_eq`
states the fuel-free recurrence that matches the source loop verbatim. -/
def producerLoopFuel (language : String) (flags : Nat → Bool) : Nat → Nat → List TranscriptionResult
  | 0, counter =>
      if flags counter then [⟨finalText language, true⟩] else []
  | fuel + 1, counter =>
      if flags counter then
        match fragAt language (counter + 1) with
        | some t => ⟨t, false⟩ :: producerLoopFuel language flags fuel (counter + 1)
        | none => [⟨finalText language, true⟩]
      else []

/-- The recognizer loop started with step counter `counter` (the source
starts it at 0). -/
def producerLoop (language : String) (flags : Nat → Bool) (counter : Nat) : List TranscriptionResult :=
  producerLoopFuel language flags (10 - counter) counter

theorem esFrag_eq_none (d : Nat) : esFrag (d + 10) = none := rfl

theorem frFrag_eq_none (d : Nat) : frFrag (d + 10) = none := rfl

theorem enFrag_eq_none (d : Nat) : enFrag (d + 10) = none := rfl

/-- From counter 10 on, every language arm of the fragment table is in its
catch-all branch. -/
theorem fragAt_eq_none (language : String) (c : Nat) (h : 10 ≤ c) : fragAt language c = none := by
  obtain ⟨d, rfl⟩ : ∃ d, c = d + 10 := ⟨c - 10, by omega⟩
  unfold fragAt
  split
  · exact esFrag_eq_none d
  · split
    · exact frFrag_eq_none d
    · exact enFrag_eq_none d

/-- A partial text only exists for counters 1 to 9. -/
theorem fragAt_some_le (language : String) (c : Nat) (t : String)
    (h : fragAt language c = some t) : c ≤ 9 := by
  by_contra hc
  rw [fragAt_eq_none language c (by omega)] at h
  exact Option.noConfusion h

/-- The fuel-free recurrence of `producerLoop`: exactly the source loop.
One iteration reads the flag; on false it stops silently; on true it
increments the counter, emits the partial fragment and recurses, or emits
the final fragment and stops. -/
theorem producerLoop_eq (language : String) (flags : Nat → Bool) (counter : Nat) :
    producerLoop language flags counter =
      if flags counter then
        match fragAt language (counter + 1) with
        | some t => ⟨t, false⟩ :: producerLoop language flags (counter + 1)
        | none => [⟨finalText language, true⟩]
      else [] := by
  unfold producerLoop
  by_cases hc : counter ≤ 9
  · have hfuel : 10 - counter = (10 - (counter + 1)) + 1 := by omega
    rw [hfuel]
    rfl
  · have hfuel : 10 - counter = 0 := by omega
    have hnone : fragAt language (counter + 1) = none := fragAt_eq_none _ _ (by omega)
    rw [hfuel, hnone]
    rfl

example : producerLoop "en-US" (fun _ => true) 0 =
    [⟨"Hello", false⟩, ⟨"Hello world", false⟩, ⟨"Hello world, this", false⟩,
     ⟨"Hello world, this is", false⟩, ⟨"Hello world, this is a", false⟩,
     ⟨"Hello world, this is a test", false⟩, ⟨"Hello world, this is a test of", false⟩,
     ⟨"Hello world, this is a test of speech", false⟩,
     ⟨"Hello world, this is a test of speech recognition", false⟩,
     ⟨"Hello world, this is a test of speech recognition.", true⟩] := by decide

example : producerLoop "es-ES" (fun c => c < 2) 0 =
    [⟨"Hola", false⟩, ⟨"Hola mundo", false⟩] := by decide

/-- State of one spawned producer task (`tokio::spawn` at lib.rs line 174):
its language tag and the current value of the step counter of its loop. -/
structure ProdState where
  language : String
  counter : Nat
deriving DecidableEq, Repr

/-- The observable state of the process: the shared flag
`TRANSCRIPTION_ACTIVE` (lib.rs line 39), the spawned producer tasks still
running, and the list of events published to the sink so far (in order). -/
structure Sys where
  active : Bool
  producers : List ProdState
  events : List EmittedEvent
deriving DecidableEq, Repr

/-- The synchronous body of the `start_transcription` command (lib.rs lines
137-198, macOS build): the result of `check_microphone_permission` is the
`perm` argument (on macOS the function always returns `Ok`, lib.rs lines
124-129).  On a permission error the command publishes one
`transcription-error` event and returns the error.  Otherwise it locks the
flag; if the flag is already true it fails with no side effect; otherwise
it sets the flag, resolves the language default and spawns the producer
task with a fresh counter. -/
def start_transcription (s : Sys) (perm : Except String Unit) (language : Option String) :
    Except String Unit × Sys :=
  match perm with
  | Except.error e =>
      let error_msg := "Microphone permission denied: " ++ e
      (Except.error error_msg,
       { s with events := s.events ++ [EmittedEvent.transcriptionError ⟨error_msg⟩] })
  | Except.ok _ =>
      if s.active then
        (Except.error "Transcription already active", s)
      else
        let lang := language.getD "en-US"
        (Except.ok (), { s with active := true, producers := s.producers ++ [⟨lang, 0⟩] })

/-- The `stop_transcription` command (lib.rs lines 200-205): obtains the
lock and writes false, unconditionally, always returning `Ok`. -/
def stop_transcription (s : Sys) : Except String Unit × Sys :=
  (Except.ok (), { s with active := false })

/-- One iteration of producer task `i` against the shared state: the task
reads the flag (the head of the `while` loop); if false the loop exits and
the task ends, publishing nothing.  If true, the counter is incremented
and either a partial fragment is published (task keeps running) or the
final fragment is published and the task ends (the `break` in the
catch-all branch).  No branch writes the flag: the loop only ever reads
`TRANSCRIPTION_ACTIVE`. -/
def producerTick (s : Sys) (i : Nat) : Sys :=
  match s.producers[i]? with
  | none => s
  | some p =>
      if s.active then
        match fragAt p.language (p.counter + 1) with
        | some t =>
            { s with producers := s.producers.set i ⟨p.language, p.counter + 1⟩,
                     events := s.events ++ [EmittedEvent.transcriptionResult ⟨t, false⟩] }
        | none =>
            { s with producers := s.producers.eraseIdx i,
                     events := s.events ++
                       [EmittedEvent.transcriptionResult ⟨finalText p.language, true⟩] }
      else
        { s with producers := s.producers.eraseIdx i }

/-- A sequence of producer iterations, by task index. -/
def ticksRun (s : Sys) : List Nat → Sys
  | [] => s
  | i :: rest => ticksRun (producerTick s i) rest

/-- No iteration of a producer task writes the shared flag. -/
theorem producerTick_active (s : Sys) (i : Nat) : (producerTick s i).active = s.active := by
  unfold producerTick
  cases s.producers[i]? with
  | none => rfl
  | some p =>
      by_cases h : s.active
      · simp only [h, if_true]
        cases fragAt p.language (p.counter + 1) <;> rfl
      · simp [h]

/-- No sequence of producer iterations writes the shared flag. -/
theorem ticksRun_active (is : List Nat) (s : Sys) : (ticksRun s is).active = s.active := by
  induction is generalizing s with
  | nil => rfl
  | cons i rest ih => rw [ticksRun, ih, producerTick_active]

theorem eraseIdx_of_length_le {α : Type} : ∀ (l : List α) (i : Nat), l.length ≤ i → l.eraseIdx i = l := by
  intro l
  induction l with
  | nil => intro i _; cases i <;> rfl
  | cons a rest ih =>
      intro i h
      cases i with
      | zero => simp at h
      | succ j =>
          simp only [List.eraseIdx]
          rw [ih j (by simpa using h)]

/-- An iteration of a producer task while the flag is false publishes
nothing and removes the task (the loop exits at its first check). -/
theorem producerTick_inactive (s : Sys) (i : Nat) (h : s.active = false) :
    producerTick s i = { s with producers := s.producers.eraseIdx i } := by
  unfold producerTick
  cases hp : s.producers[i]? with
  | some p => simp [h]
  | none =>
      have hlen : s.producers.length ≤ i := by
        by_contra hlt
        rw [List.getElem?_eq_getElem (by omega)] at hp
        exact Option.noConfusion hp
      rw [eraseIdx_of_length_le _ _ hlen]

/-- While the flag stays false, no sequence of producer iterations
publishes any event, and the flag stays false. -/
theorem ticksRun_inactive_events (is : List Nat) (s : Sys) (h : s.active = false) :
    (ticksRun s is).events = s.events := by
  induction is generalizing s with
  | nil => rfl
  | cons i rest ih =>
      rw [ticksRun, producerTick_inactive s i h, ih]
      exact h

/-- Each fragment text is a strict prefix of the next: prefix on the
character data, with strictly increasing length. -/
def chainOk : List TranscriptionResult → Bool
  | [] => true
  | [_] => true
  | a :: b :: rest =>
      (a.text.data.isPrefixOf b.text.data && decide (a.text.length < b.text.length))
        && chainOk (b :: rest)

/-- Every fragment except possibly the last has `is_final = false`: at most
one final fragment, it comes last, and nothing follows it. -/
def finalsOk : List TranscriptionResult → Bool
  | [] => true
  | [_] => true
  | a :: b :: rest => !a.is_final && finalsOk (b :: rest)

theorem chainOk_take (l : List TranscriptionResult) (n : Nat) (h : chainOk l = true) :
    chainOk (l.take n) = true := by
  induction l generalizing n with
  | nil => simpa using h
  | cons a rest ih =>
      cases n with
      | zero => rfl
      | succ m =>
          cases rest with
          | nil => cases m <;> simpa using h
          | cons b rest2 =>
              rw [chainOk, Bool.and_eq_true] at h
              cases m with
              | zero => rfl
              | succ k =>
                  show chainOk (a :: b :: rest2.take k) = true
                  rw [chainOk, Bool.and_eq_true]
                  exact ⟨h.1, ih (k + 1) h.2⟩

theorem finalsOk_take (l : List TranscriptionResult) (n : Nat) (h : finalsOk l = true) :
    finalsOk (l.take n) = true := by
  induction l generalizing n with
  | nil => simpa using h
  | cons a rest ih =>
      cases n with
      | zero => rfl
      | succ m =>
          cases rest with
          | nil => cases m <;> simpa using h
          | cons b rest2 =>
              rw [finalsOk, Bool.and_eq_true] at h
              cases m with
              | zero => rfl
              | succ k =>
                  show finalsOk (a :: b :: rest2.take k) = true
                  rw [finalsOk, Bool.and_eq_true]
                  exact ⟨h.1, ih (k + 1) h.2⟩

/-- Whatever values the loop reads from the shared flag, the emitted
sequence is an initial segment of the uninterrupted run (the run that
reads true at every check). -/
theorem producerLoopFuel_take (language : String) (flags : Nat → Bool) :
    ∀ (fuel counter : Nat), ∃ n,
      producerLoopFuel language flags fuel counter
        = (producerLoopFuel language (fun _ => true) fuel counter).take n := by
  intro fuel
  induction fuel with
  | zero =>
      intro c
      by_cases h : flags c
      · exact ⟨1, by simp [producerLoopFuel, h]⟩
      · exact ⟨0, by simp [producerLoopFuel, h]⟩
  | succ f ih =>
      intro c
      by_cases h : flags c
      · cases hf : fragAt language (c + 1) with
        | some t =>
            obtain ⟨n, hn⟩ := ih (c + 1)
            exact ⟨n + 1, by simp [producerLoopFuel, h, hf, hn]⟩
        | none => exact ⟨1, by simp [producerLoopFuel, h, hf]⟩
      · exact ⟨0, by simp [producerLoopFuel, h]⟩

/-- The loop depends on the language only through the fragment table and
the final text. -/
theorem producerLoopFuel_congr (l₁ l₂ : String)
    (hfrag : ∀ c, fragAt l₁ c = fragAt l₂ c) (hfin : finalText l₁ = finalText l₂) :
    ∀ (fuel : Nat) (flags : Nat → Bool) (counter : Nat),
      producerLoopFuel l₁ flags fuel counter = producerLoopFuel l₂ flags fuel counter := by
  intro fuel
  induction fuel with
  | zero => intro flags c; simp [producerLoopFuel, hfin]
  | succ f ih =>
      intro flags c
      simp only [producerLoopFuel, hfrag, hfin]
      by_cases h : flags c
      · simp only [h, if_true]
        cases fragAt l₂ (c + 1) with
        | some t => simp [ih]
        | none => rfl
      · simp [h]

/-- A language tag other than the two recognized ones falls into the
catch-all (English) arm of the fragment match. -/
theorem fragAt_default (language : String) (h1 : language ≠ "es-ES") (h2 : language ≠ "fr-FR")
    (c : Nat) : fragAt language c = fragAt "en-US" c := by
  unfold fragAt
  rw [if_neg h1, if_neg h2]
  rfl

/-- A language tag other than the two recognized ones takes the catch-all
(English) final text. -/
theorem finalText_default (language : String) (h1 : language ≠ "es-ES") (h2 : language ≠ "fr-FR") :
    finalText language = finalText "en-US" := by
  unfold finalText
  rw [if_neg h1, if_neg h2]
  rfl

/-- The uninterrupted run of every language satisfies both fragment
invariants. -/
theorem fullRun_ok (language : String) :
    chainOk (producerLoopFuel language (fun _ => true) 10 0) = true ∧
      finalsOk (producerLoopFuel language (fun _ => true) 10 0) = true := by
  by_cases h1 : language = "es-ES"
  · subst h1; exact ⟨by decide, by decide⟩
  · by_cases h2 : language = "fr-FR"
    · subst h2; exact ⟨by decide, by decide⟩
    · rw [producerLoopFuel_congr language "en-US" (fragAt_default language h1 h2)
        (finalText_default language h1 h2)]
      exact ⟨by decide, by decide⟩

/-- What `translate` observes of the HTTP exchange with the upstream
service (the transport itself is outside the repository): the numeric
status code, the result of `response.text()` (`none` models a failing
body read, replaced in the source by a fixed placeholder), and the result
of decoding the body as a `DeepLResponse` (`Except.error` carries the
decoder failure description, `Except.ok` the texts of the `translations`
array). -/
structure HttpResponse where
  status : Nat
  bodyText : Option String
  translations : Except String (List String)
deriving Repr

/-- `status().is_success()`: a 2xx status. -/
def statusIsSuccess (status : Nat) : Bool :=
  200 ≤ status && status < 300

/-- The `translate` command (lib.rs lines 48-121).  `api_key_env` is the
value of the `DEEPL_API_KEY` environment variable; `net` is the outcome of
the `send()` call (`Except.error` carries the connection failure
description).  The status is rendered by its numeric code; the upstream
`Display` of a status starts with that code, so the containment stated in
the claims is unaffected.  (Named `translate` in the source; that name is
taken in the ambient library.) -/
def translateCmd (api_key_env : Option String) (net : Except String HttpResponse) :
    Except TranslationError TranslationResult :=
  match api_key_env with
  | none => Except.error ⟨"DeepL API key not found in environment."⟩
  | some api_key =>
      if api_key = "" ∨ api_key = "your_deepl_api_key_here" then
        Except.error ⟨"API key is empty or is a placeholder. Please check your .env file."⟩
      else
        match net with
        | Except.error e => Except.error ⟨"Failed to connect to DeepL API: " ++ e⟩
        | Except.ok response =>
            if !statusIsSuccess response.status then
              let error_body := response.bodyText.getD "Could not retrieve error body."
              Except.error ⟨"DeepL API Error (Status: " ++ toString response.status ++ "): "
                ++ error_body⟩
            else
              match response.translations with
              | Except.error e => Except.error ⟨"Failed to parse DeepL response: " ++ e⟩
              | Except.ok translations =>
                  match translations.head? with
                  | none => Except.error ⟨"No translation found in DeepL response."⟩
                  | some t => Except.ok ⟨t⟩

/-- The argument list `say -v <voice> -r <rate> <text>` that `speak`
builds. -/
structure SayCommand where
  voice : String
  rate : String
  text : String
deriving DecidableEq, Repr

/-- The voice and rate resolution of the `speak` command (lib.rs lines
209-242, macOS build): the voice is a two-level match on `language_code`
then `voice_preset` (the `"en-US" | _` arm is the catch-all), the rate a
match on `voice_preset` alone. -/
def speak (text voice_preset language_code : String) : SayCommand :=
  let voice :=
    if language_code = "es-ES" then
      (if voice_preset = "cinematic" then "Diego" else "Mónica")
    else if language_code = "fr-FR" then
      (if voice_preset = "cinematic" then "Thomas" else "Amélie")
    else
      (if voice_preset = "cinematic" then "Alex" else "Samantha")
  let rate := if voice_preset = "cinematic" then "150" else "200"
  ⟨voice, rate, text⟩

/-- C2: a `start` call while the flag is already true fails with the
already-active error and has no side effect: the returned state is the
input state unchanged (flag still true, same producer tasks, no event
published). -/
theorem start_already_active_no_side_effect (s : Sys) (language : Option String)
    (h : s.active = true) :
    start_transcription s (Except.ok ()) language
      = (Except.error "Transcription already active", s) := by
  simp [start_transcription, h]

theorem start_already_active_no_side_effect_witness :
    (Sys.mk true [⟨"en-US", 3⟩] []).active = true ∧
    start_transcription (Sys.mk true [⟨"en-US", 3⟩] []) (Except.ok ()) none
      = (Except.error "Transcription already active", Sys.mk true [⟨"en-US", 3⟩] []) :=
  ⟨rfl, start_already_active_no_side_effect (Sys.mk true [⟨"en-US", 3⟩] []) none rfl⟩

/-- C5: when the permission check fails, `start` publishes exactly one
`transcription-error` event and returns the error; the flag and the task
pool are untouched, and the outcome is the same whatever the flag value
(the permission check precedes the exclusivity check, so the flag is
neither read nor written on this path). -/
theorem start_permission_denied_publishes_error (s : Sys) (e : String)
    (language : Option String) :
    start_transcription s (Except.error e) language
      = (Except.error ("Microphone permission denied: " ++ e),
         { s with events := s.events ++
             [EmittedEvent.transcriptionError ⟨"Microphone permission denied: " ++ e⟩] }) := rfl

/-- C6: `stop` always succeeds and writes false to the flag
unconditionally, touching nothing else; on an idle state it is a no-op
returning the state unchanged. -/
theorem stop_transcription_unconditional (s : Sys) (ps : List ProdState)
    (es : List EmittedEvent) :
    stop_transcription s = (Except.ok (), { s with active := false }) ∧
    stop_transcription (Sys.mk false ps es) = (Except.ok (), Sys.mk false ps es) :=
  ⟨rfl, rfl⟩

/-- C4: once the flag is false, the very next check of the producer loop
(at most one cadence interval away) exits the loop: the iteration
publishes nothing — in particular no final fragment — and the task ends;
and as long as the flag stays false no sequence of producer iterations
publishes anything. -/
theorem flag_false_halts_producer (s : Sys) (i : Nat) (is : List Nat)
    (h : s.active = false) :
    producerTick s i = { s with producers := s.producers.eraseIdx i } ∧
    (producerTick s i).events = s.events ∧
    (ticksRun s is).events = s.events := by
  refine ⟨producerTick_inactive s i h, ?_, ticksRun_inactive_events is s h⟩
  rw [producerTick_inactive s i h]

theorem flag_false_halts_producer_witness :
    (Sys.mk false [⟨"en-US", 4⟩] []).active = false ∧
    (producerTick (Sys.mk false [⟨"en-US", 4⟩] []) 0
        = { Sys.mk false [⟨"en-US", 4⟩] [] with
              producers := ([⟨"en-US", 4⟩] : List ProdState).eraseIdx 0 } ∧
      (producerTick (Sys.mk false [⟨"en-US", 4⟩] []) 0).events = [] ∧
      (ticksRun (Sys.mk false [⟨"en-US", 4⟩] []) [0, 0, 0]).events = []) :=
  ⟨rfl, flag_false_halts_producer (Sys.mk false [⟨"en-US", 4⟩] []) 0 [0, 0, 0] rfl⟩

/-- C1 (counterexample): starting a session on the idle initial state and
letting the producer run uninterrupted to its natural end (ten
iterations, the last one emitting the final fragment) leaves the flag
true, not false, and a subsequent `start` fails with the already-active
error instead of succeeding. -/
theorem producer_completion_leaves_flag_true_ce :
    (ticksRun (start_transcription (Sys.mk false [] []) (Except.ok ()) none).2
        [0, 0, 0, 0, 0, 0, 0, 0, 0, 0]).active = true ∧
    (ticksRun (start_transcription (Sys.mk false [] []) (Except.ok ()) none).2
        [0, 0, 0, 0, 0, 0, 0, 0, 0, 0]).producers = [] ∧
    (ticksRun (start_transcription (Sys.mk false [] []) (Except.ok ()) none).2
        [0, 0, 0, 0, 0, 0, 0, 0, 0, 0]).events.getLast?
      = some (EmittedEvent.transcriptionResult
          ⟨"Hello world, this is a test of speech recognition.", true⟩) ∧
    (start_transcription
        (ticksRun (start_transcription (Sys.mk false [] []) (Except.ok ()) none).2
          [0, 0, 0, 0, 0, 0, 0, 0, 0, 0]) (Except.ok ()) none).1
      = Except.error "Transcription already active" :=
  ⟨rfl, rfl, rfl, rfl⟩

/-- C1 (amended): the producer loop only reads the shared flag and never
writes it, so when the producer terminates on its own the flag keeps its
previous value: after any sequence of producer iterations from an active
state the flag is still true and a subsequent `start` fails with the
already-active error until `stop` is called. -/
theorem producer_termination_never_resets_flag (s : Sys) (is : List Nat)
    (language : Option String) (h : s.active = true) :
    (ticksRun s is).active = true ∧
    (start_transcription (ticksRun s is) (Except.ok ()) language).1
      = Except.error "Transcription already active" := by
  have ha : (ticksRun s is).active = true := by rw [ticksRun_active]; exact h
  refine ⟨ha, ?_⟩
  simp [start_transcription, ha]

theorem producer_termination_never_resets_flag_witness :
    (Sys.mk true [⟨"en-US", 9⟩] []).active = true ∧
    ((ticksRun (Sys.mk true [⟨"en-US", 9⟩] []) [0]).active = true ∧
      (start_transcription (ticksRun (Sys.mk true [⟨"en-US", 9⟩] []) [0])
          (Except.ok ()) none).1
        = Except.error "Transcription already active") :=
  ⟨rfl, producer_termination_never_resets_flag (Sys.mk true [⟨"en-US", 9⟩] []) [0] none rfl⟩

/-- C3: whatever the language tag and whatever values the loop reads from
the shared flag, the emitted fragment sequence is a chain of strict
prefixes (each text a prefix of the next, with strictly increasing
length), and every fragment except possibly the last is non-final: at
most one final fragment, emitted last, with nothing after it. -/
theorem producer_fragment_invariants (language : String) (flags : Nat → Bool) :
    chainOk (producerLoop language flags 0) = true ∧
    finalsOk (producerLoop language flags 0) = true := by
  obtain ⟨n, hn⟩ := producerLoopFuel_take language flags 10 0
  have hl : producerLoop language flags 0 = producerLoopFuel language flags 10 0 := rfl
  rw [hl, hn]
  exact ⟨chainOk_take _ n (fullRun_ok language).1, finalsOk_take _ n (fullRun_ok language).2⟩

/-- C9: every language tag other than the two recognized ones — not only
the default tag — takes the catch-all arm: the uninterrupted run emits
exactly nine non-final English fragments followed by one final fragment
reading the full English sentence. -/
theorem producer_default_language_run (language : String)
    (h1 : language ≠ "es-ES") (h2 : language ≠ "fr-FR") :
    producerLoop language (fun _ => true) 0 =
      [⟨"Hello", false⟩, ⟨"Hello world", false⟩, ⟨"Hello world, this", false⟩,
       ⟨"Hello world, this is", false⟩, ⟨"Hello world, this is a", false⟩,
       ⟨"Hello world, this is a test", false⟩, ⟨"Hello world, this is a test of", false⟩,
       ⟨"Hello world, this is a test of speech", false⟩,
       ⟨"Hello world, this is a test of speech recognition", false⟩,
       ⟨"Hello world, this is a test of speech recognition.", true⟩] := by
  have hcongr : producerLoopFuel language (fun _ => true) 10 0
      = producerLoopFuel "en-US" (fun _ => true) 10 0 :=
    producerLoopFuel_congr language "en-US" (fragAt_default language h1 h2)
      (finalText_default language h1 h2) 10 (fun _ => true) 0
  have hl : producerLoop language (fun _ => true) 0
      = producerLoopFuel language (fun _ => true) 10 0 := rfl
  rw [hl, hcongr]
  decide

theorem producer_default_language_run_witness :
    producerLoop "de-DE" (fun _ => true) 0 =
      [⟨"Hello", false⟩, ⟨"Hello world", false⟩, ⟨"Hello world, this", false⟩,
       ⟨"Hello world, this is", false⟩, ⟨"Hello world, this is a", false⟩,
       ⟨"Hello world, this is a test", false⟩, ⟨"Hello world, this is a test of", false⟩,
       ⟨"Hello world, this is a test of speech", false⟩,
       ⟨"Hello world, this is a test of speech recognition", false⟩,
       ⟨"Hello world, this is a test of speech recognition.", true⟩] :=
  producer_default_language_run "de-DE" (by decide) (by decide)

/-- C7: with a usable credential, a non-success HTTP status makes
`translate` fail with a message that carries both the numeric status code
and the full response body: the message is exactly the status-and-body
format string, and both the rendered status and the body occur in it as
substrings. -/
theorem translate_upstream_error_detail (key : String) (r : HttpResponse) (body : String)
    (hk1 : key ≠ "") (hk2 : key ≠ "your_deepl_api_key_here")
    (hs : statusIsSuccess r.status = false) (hb : r.bodyText = some body) :
    translateCmd (some key) (Except.ok r)
        = Except.error ⟨"DeepL API Error (Status: " ++ toString r.status ++ "): " ++ body⟩ ∧
    (∃ p q, "DeepL API Error (Status: " ++ toString r.status ++ "): " ++ body
        = p ++ toString r.status ++ q) ∧
    (∃ p q, "DeepL API Error (Status: " ++ toString r.status ++ "): " ++ body
        = p ++ body ++ q) := by
  refine ⟨?_, ?_, ?_⟩
  · simp [translateCmd, hs, hb, hk1, hk2]
  · exact ⟨"DeepL API Error (Status: ", "): " ++ body, by
      rw [String.append_assoc, String.append_assoc]⟩
  · exact ⟨"DeepL API Error (Status: " ++ toString r.status ++ "): ", "", by
      rw [String.append_empty]⟩

theorem translate_upstream_error_detail_witness :
    ("k" : String) ≠ "" ∧
    statusIsSuccess 456 = false ∧
    (translateCmd (some "k") (Except.ok ⟨456, some "quota exceeded", Except.ok []⟩)
        = Except.error ⟨"DeepL API Error (Status: 456): quota exceeded"⟩ ∧
      (∃ p q, ("DeepL API Error (Status: 456): quota exceeded" : String)
          = p ++ toString (456 : Nat) ++ q) ∧
      (∃ p q, ("DeepL API Error (Status: 456): quota exceeded" : String)
          = p ++ "quota exceeded" ++ q)) :=
  ⟨by decide, rfl,
   translate_upstream_error_detail "k" ⟨456, some "quota exceeded", Except.ok []⟩
     "quota exceeded" (by decide) (by decide) rfl rfl⟩

/-- C8: the voice table resolves `("fr-FR", "cinematic")` to the French
male voice with the cinematic rate, and every language code other than
the two recognized non-default ones resolves through the catch-all row,
identically to the default English code. -/
theorem speak_resolution (t p lc : String) (h1 : lc ≠ "es-ES") (h2 : lc ≠ "fr-FR") :
    speak "Hi" "cinematic" "fr-FR" = ⟨"Thomas", "150", "Hi"⟩ ∧
    speak t p lc = speak t p "en-US" := by
  refine ⟨rfl, ?_⟩
  simp only [speak, if_neg h1, if_neg h2]
  rfl

theorem speak_resolution_witness :
    ("de-DE" : String) ≠ "es-ES" ∧
    (speak "Hi" "cinematic" "fr-FR" = ⟨"Thomas", "150", "Hi"⟩ ∧
      speak "Hallo" "cinematic" "de-DE" = speak "Hallo" "cinematic" "en-US") :=
  ⟨by decide, speak_resolution "Hallo" "cinematic" "de-DE" (by decide) (by decide)⟩

/-- C10: the rate passed to the voice engine is a function of the preset
alone — 150 for the cinematic preset and 200 for any other — independent
of the text spoken and of the language code. -/
theorem speak_rate_preset_only (t1 t2 lc1 lc2 p : String) :
    (speak t1 p lc1).rate = (if p = "cinematic" then "150" else "200") ∧
    (speak t1 p lc1).rate = (speak t2 p lc2).rate :=
  ⟨rfl, rfl⟩
